import Mathlib

/-!
Shallow embedding of the decision / guardrail / backtesting core of the
Hermes backend (src/backend/agent.py and src/backend/backtesting/engine.py).

Modelling conventions:
* Python floats are modelled as `ℚ` (all the modelled code only adds,
  multiplies, divides, compares and takes `min`/`abs`/`floor`).
* Python `None`-able values are `Option`.
* Python truthiness on a float (`if x:`) is `x ≠ 0`; on a string it is
  `s ≠ ""`; on an optional float (`if opt:`) it is "`some x` with `x ≠ 0`".
* External effects (market fetch, news fetch, the GPT call, the sqlite
  writes) are parameters carrying their outcome; the embedded functions model
  the control flow of the Python code around those outcomes.
* `datetime` timestamps are dropped (no claim depends on them); trade and
  bar dates are opaque strings.
-/

namespace Hermes

/-- Python `str.upper()` restricted to ASCII, used by `AgentGuardrail`
(`s.strip().upper()` in `__init__`, `symbol.upper()` in `enforce`). -/
def pyUpperChar (c : Char) : Char :=
  if c.isLower then Char.ofNat (c.toNat - 32) else c

/-- Python `str.upper()` on a whole string. -/
def pyUpper (s : String) : String := String.mk (s.data.map pyUpperChar)

/-- Python `str.strip()`: drop leading and trailing whitespace. -/
def pyStrip (s : String) : String :=
  String.mk (((s.data.dropWhile (fun c => c.isWhitespace)).reverse.dropWhile
    (fun c => c.isWhitespace)).reverse)

/-- `Signal` enum of agent.py. -/
inductive Signal
  | BUY
  | SELL
  | HOLD
deriving DecidableEq

/-- `TradingPrediction` dataclass of agent.py (the `timestamp` field is
dropped; no modelled behaviour reads it). -/
structure TradingPrediction where
  symbol : String
  signal : Signal
  confidence : ℚ
  reasoning : List String
  entry_price : Option ℚ
  stop_loss : Option ℚ
  target_price : Option ℚ
  timeframe : String
  risk_level : String

/-- The `volume_profile` dict built in `MarketDataFetcher.fetch_market_data`
(`volume_ratio` in the source is the field `volume_rel` here, renamed for the
checker). -/
structure VolumeProfile where
  avg_volume : ℚ
  current_volume : ℚ
  volume_rel : ℚ

/-- `MarketData` dataclass of agent.py. The sparse indicator dict is a
partial map; the `ohlcv` frame is dropped (no modelled behaviour reads it). -/
structure MarketData where
  symbol : String
  current_price : ℚ
  technical_indicators : String → Option ℚ
  volume_profile : VolumeProfile
  volatility : ℚ

/-- `NewsData` dataclass of agent.py. -/
structure NewsData where
  headlines : List String
  sentiment_score : ℚ
  sentiment_label : String
  news_count : Nat

/-- `AgentGuardrail` instance state (agent.py lines 85-88). -/
structure AgentGuardrail where
  max_confidence : ℚ
  max_position_risk_pct : ℚ
  banned_symbols : List String

/-- `AgentGuardrail.__init__`: banned symbols are stripped, filtered on
truthiness of the stripped string, and upper-cased.  Defaults follow the
source signature (`max_confidence=95.0`, `max_position_risk_pct=0.05`,
`banned_symbols=None`). -/
def mkAgentGuardrail (max_confidence : ℚ := 95) (max_position_risk_pct : ℚ := 5/100)
    (banned : List String := []) : AgentGuardrail :=
  { max_confidence := max_confidence
    max_position_risk_pct := max_position_risk_pct
    banned_symbols := (banned.filter (fun s => pyStrip s ≠ "")).map
      (fun s => pyUpper (pyStrip s)) }

/-- Reasoning line inserted by the banned-symbol guardrail. -/
def bannedNote : String := "Guardrail: trading is banned for this symbol"

/-- Reasoning line inserted by the missing entry/stop guardrail. -/
def missingNote : String := "Guardrail: missing entry or stop-loss -> switched to HOLD"

/-- Reasoning line inserted by the risk-fraction guardrail. -/
def riskNote : String := "Guardrail: excessive per-share risk detected; confidence reduced"

/-- Reasoning line inserted by the confidence cap guardrail. -/
def cappedNote (m : ℚ) : String := "Guardrail: confidence capped at " ++ toString m

/-- agent.py line 98: the symbol used by the guardrail is the market-data
symbol when present and truthy, else the prediction's symbol. -/
def effSymbol (p : TradingPrediction) (md : Option MarketData) : String :=
  match md with
  | some m => if m.symbol ≠ "" then m.symbol else p.symbol
  | none => p.symbol

/-- Guardrail rule 2 (agent.py lines 107-113): a BUY/SELL prediction missing
entry or stop-loss is forced to HOLD with confidence capped at 50. -/
def missingStopRule (p : TradingPrediction) : TradingPrediction × List String :=
  if (p.signal = Signal.BUY ∨ p.signal = Signal.SELL) ∧
      (p.entry_price = none ∨ p.stop_loss = none) then
    ({ p with
        signal := Signal.HOLD
        confidence := min p.confidence 50
        reasoning := missingNote :: p.reasoning }, ["missing_entry_or_stop"])
  else (p, [])

/-- Guardrail rule 3 (agent.py lines 115-129): when market data, its current
price, the stop-loss and the entry price are all truthy and the current price
is positive, a risk fraction `|entry - stop| / current` above 0.5 caps
confidence at 40.  The source wraps this in `try/except`; in the embedding the
only failure mode (a missing/zero input) is the explicit guard, which skips
the rule. -/
def riskFractionRule (md : Option MarketData) (pf : TradingPrediction × List String) :
    TradingPrediction × List String :=
  match md, pf.1.stop_loss, pf.1.entry_price with
  | some m, some sl, some ep =>
      if m.current_price ≠ 0 ∧ sl ≠ 0 ∧ ep ≠ 0 ∧ 0 < m.current_price ∧
          1/2 < |ep - sl| / m.current_price then
        ({ pf.1 with
            confidence := min pf.1.confidence 40
            reasoning := riskNote :: pf.1.reasoning },
         pf.2 ++ ["excessive_risk_fraction"])
      else pf
  | _, _, _ => pf

/-- Guardrail rule 4 (agent.py lines 131-135): clamp confidence to the
configured maximum. -/
def confidenceCapRule (g : AgentGuardrail) (pf : TradingPrediction × List String) :
    TradingPrediction × List String :=
  if g.max_confidence < pf.1.confidence then
    ({ pf.1 with
        confidence := g.max_confidence
        reasoning := cappedNote g.max_confidence :: pf.1.reasoning },
     pf.2 ++ ["confidence_capped"])
  else pf

/-- `AgentGuardrail.enforce` (agent.py lines 90-137).  The banned-symbol rule
(lines 97-105) returns immediately, short-circuiting the remaining rules. -/
def AgentGuardrail.enforce (g : AgentGuardrail) (p : TradingPrediction)
    (md : Option MarketData) : TradingPrediction × List String :=
  if effSymbol p md ≠ "" ∧ pyUpper (effSymbol p md) ∈ g.banned_symbols then
    ({ p with
        signal := Signal.HOLD
        confidence := 0
        reasoning := bannedNote :: p.reasoning }, ["banned_symbol"])
  else
    confidenceCapRule g (riskFractionRule md (missingStopRule p))

/-- The decoded JSON payload a GPT response may contain (the fields
`_parse_gpt_response` reads with `.get`). -/
structure GptPayload where
  signal : Option String
  confidence : Option ℚ
  reasoning : Option (List String)
  entry_price : Option ℚ
  stop_loss : Option ℚ
  target_price : Option ℚ
  risk_level : Option String

/-- `Signal(...)` enum construction: raises (here `none`) on any string other
than the three members. -/
def signalFromString (s : String) : Option Signal :=
  if s = "BUY" then some Signal.BUY
  else if s = "SELL" then some Signal.SELL
  else if s = "HOLD" then some Signal.HOLD
  else none

/-- The prediction `_parse_gpt_response` builds in its `except` branch
(agent.py lines 633-647): a safe HOLD at confidence 50.  The source message
interpolates the exception text after the colon; the embedding keeps the
fixed part. -/
def parseErrorPrediction (symbol timeframe : String) : TradingPrediction :=
  { symbol := symbol, signal := Signal.HOLD, confidence := 50,
    reasoning := ["Unable to parse GPT response"], entry_price := none,
    stop_loss := none, target_price := none, timeframe := timeframe,
    risk_level := "HIGH" }

/-- `_parse_gpt_response` (agent.py lines 589-647).  Locating the brace
substring and JSON-decoding it is abstracted into the `Option GptPayload`
argument: `none` is any decode failure (no braces, malformed JSON, wrong
types).  A payload whose `signal` string is not a `Signal` member raises
inside the `try` and lands in the same `except` branch. -/
def parseGptResponse (payload : Option GptPayload) (symbol timeframe : String) :
    TradingPrediction :=
  match payload with
  | none => parseErrorPrediction symbol timeframe
  | some d =>
      match signalFromString (d.signal.getD "HOLD") with
      | none => parseErrorPrediction symbol timeframe
      | some sig =>
          { symbol := symbol, signal := sig,
            confidence := min (max (d.confidence.getD 50) 0) 100,
            reasoning := d.reasoning.getD ["GPT analysis completed"],
            entry_price := d.entry_price, stop_loss := d.stop_loss,
            target_price := d.target_price, timeframe := timeframe,
            risk_level := d.risk_level.getD "MEDIUM" }

/-- RSI block of `_generate_fallback_prediction` (agent.py lines 709-723):
score contribution and reasoning lines.  `indicators.get('RSI')` followed by
`if rsi:` skips the block when the key is absent or the value is 0. -/
def rsiRule (ind : String → Option ℚ) : ℤ × List String :=
  match ind "RSI" with
  | some rsi =>
      if rsi ≠ 0 then
        if rsi < 30 then (2, ["RSI oversold at " ++ toString rsi])
        else if 70 < rsi then (-2, ["RSI overbought at " ++ toString rsi])
        else if rsi < 50 then (1, ["RSI below midline at " ++ toString rsi])
        else (-1, ["RSI above midline at " ++ toString rsi])
      else (0, [])
  | none => (0, [])

/-- EMA block (agent.py lines 725-734): `if ema_12 and ema_26:` requires both
present and nonzero. -/
def emaRule (ind : String → Option ℚ) : ℤ × List String :=
  match ind "EMA_12", ind "EMA_26" with
  | some e12, some e26 =>
      if e12 ≠ 0 ∧ e26 ≠ 0 then
        if e26 < e12 then (1, ["Short-term EMA above long-term EMA (bullish)"])
        else (-1, ["Short-term EMA below long-term EMA (bearish)"])
      else (0, [])
  | _, _ => (0, [])

/-- MACD block (agent.py lines 736-745): `if macd and macd_signal:` requires
both present and nonzero. -/
def macdRule (ind : String → Option ℚ) : ℤ × List String :=
  match ind "MACD", ind "MACD_Signal" with
  | some macd, some sig =>
      if macd ≠ 0 ∧ sig ≠ 0 then
        if sig < macd then (1, ["MACD above signal line (bullish)"])
        else (-1, ["MACD below signal line (bearish)"])
      else (0, [])
  | _, _ => (0, [])

/-- News sentiment block (agent.py lines 747-753): contributes only outside
the [-0.2, 0.2] band. -/
def sentimentRule (news : NewsData) : ℤ × List String :=
  if 1/5 < news.sentiment_score then
    (1, ["Positive news sentiment (" ++ toString news.sentiment_score ++ ")"])
  else if news.sentiment_score < -(1/5) then
    (-1, ["Negative news sentiment (" ++ toString news.sentiment_score ++ ")"])
  else (0, [])

/-- Volume block (agent.py lines 755-760): reasoning only, no score change. -/
def volumeLines (vr : ℚ) : List String :=
  if 3/2 < vr then ["High volume (" ++ toString vr ++ "x average)"]
  else if vr < 1/2 then ["Low volume (" ++ toString vr ++ "x average)"]
  else []

/-- The integer score of the fallback scorer: sum of the rule contributions. -/
def fallbackScore (md : MarketData) (news : NewsData) : ℤ :=
  (rsiRule md.technical_indicators).1 + (emaRule md.technical_indicators).1 +
    (macdRule md.technical_indicators).1 + (sentimentRule news).1

/-- The reasoning lines accumulated by the fallback scorer, in source order. -/
def fallbackReasoningLines (md : MarketData) (news : NewsData) : List String :=
  (rsiRule md.technical_indicators).2 ++ (emaRule md.technical_indicators).2 ++
    (macdRule md.technical_indicators).2 ++ (sentimentRule news).2 ++
    volumeLines md.volume_profile.volume_rel

/-- `_generate_fallback_prediction` (agent.py lines 690-802): deterministic
rule-based scorer.  Score-to-signal mapping, ATR-based entry/stop/target and
the final fallback marker line follow lines 762-802. -/
def generateFallbackPrediction (md : MarketData) (news : NewsData)
    (timeframe : String) : TradingPrediction :=
  let current_price := md.current_price
  let score := fallbackScore md news
  let signal : Signal :=
    if 3 ≤ score then Signal.BUY
    else if score ≤ -3 then Signal.SELL
    else Signal.HOLD
  let confidence : ℚ :=
    if 3 ≤ score then min (70 + (score : ℚ) * 5) 95
    else if score ≤ -3 then min (70 + (|score| : ℚ) * 5) 95
    else 50
  let atr := (md.technical_indicators "ATR").getD (current_price * (2/100))
  let stop_loss : Option ℚ :=
    if signal = Signal.BUY then some (current_price - atr * 2)
    else if signal = Signal.SELL then some (current_price + atr * 2)
    else none
  let target_price : Option ℚ :=
    if signal = Signal.BUY then some (current_price + atr * 3)
    else if signal = Signal.SELL then some (current_price - atr * 3)
    else none
  { symbol := md.symbol, signal := signal, confidence := confidence,
    reasoning := fallbackReasoningLines md news ++
      ["Analysis based on technical indicators (GPT unavailable)"],
    entry_price := some current_price, stop_loss := stop_loss,
    target_price := target_price, timeframe := timeframe,
    risk_level := "MEDIUM" }

/-- Outcome of the single GPT attempt inside `analyze_asset`: the call itself
raised (error/timeout), or it returned text whose brace-delimited JSON decodes
to `some` payload (or fails to decode: `none`). -/
inductive OracleOutcome
  | callFailure
  | responded (payload : Option GptPayload)

/-- What one (cache-missing) `analyze_asset` cycle produces: the returned
prediction and the value written to the cache, if any. -/
structure AnalyzeOutcome where
  decision : TradingPrediction
  cacheWrite : Option TradingPrediction

/-- The safe prediction built in the outer `except` branch of `analyze_asset`
(agent.py lines 877-892): HOLD at confidence 30, reasoning carrying the
failure message; returned without touching the cache. -/
def safeErrorPrediction (symbol timeframe msg : String) : TradingPrediction :=
  { symbol := symbol, signal := Signal.HOLD, confidence := 30,
    reasoning := ["Analysis failed: " ++ msg], entry_price := none,
    stop_loss := none, target_price := none, timeframe := timeframe,
    risk_level := "HIGH" }

/-- Candidate selection of `analyze_asset` (agent.py lines 836-857): with an
`OPENAI_API_KEY`, a returned GPT response is parsed (parse failures yield the
parser's own safe prediction); a failed call, or no key, uses the fallback
scorer. -/
def candidatePrediction (hasOracleKey : Bool) (md : MarketData) (newsData : NewsData)
    (oracle : OracleOutcome) (symbol timeframe : String) : TradingPrediction :=
  if hasOracleKey then
    match oracle with
    | OracleOutcome.callFailure => generateFallbackPrediction md newsData timeframe
    | OracleOutcome.responded payload => parseGptResponse payload symbol timeframe
  else generateFallbackPrediction md newsData timeframe

/-- The flag annotation after guardrail enforcement (agent.py lines 863-865):
non-empty guard flags are appended to the reasoning for auditability. -/
def finalizePrediction (enforced : TradingPrediction × List String) : TradingPrediction :=
  if enforced.2 ≠ [] then
    { enforced.1 with reasoning :=
        enforced.1.reasoning ++ ["guard_flags=" ++ toString enforced.2] }
  else enforced.1

/-- `TradingAgent.analyze_asset` (agent.py lines 804-892), one cache-missing
cycle.  `hasOracleKey` is whether `OPENAI_API_KEY` is configured.  A `none`
market-data fetch raises `ValueError("Unable to fetch market data for ...")`,
which the outer `except` turns into the safe prediction, returned WITHOUT a
cache write.  Otherwise the candidate is selected, the guardrail constructed
with ALL DEFAULTS is enforced, flags are appended to the reasoning for audit,
and the result is cached and returned. -/
def analyzeAsset (hasOracleKey : Bool) (marketData : Option MarketData)
    (newsData : NewsData) (oracle : OracleOutcome) (symbol timeframe : String) :
    AnalyzeOutcome :=
  match marketData with
  | none =>
      { decision := safeErrorPrediction symbol timeframe
          ("Unable to fetch market data for " ++ symbol),
        cacheWrite := none }
  | some md =>
      let final := finalizePrediction ((mkAgentGuardrail).enforce
        (candidatePrediction hasOracleKey md newsData oracle symbol timeframe) (some md))
      { decision := final, cacheWrite := some final }

/-! ## Backtesting engine (src/backend/backtesting/engine.py)

The per-bar prediction the engine obtains from the agent is a parameter: the
historical series is a list of (bar, prediction) pairs, processed in order.
`win_rate` and `total_return` are embedded; `max_drawdown` and `sharpe_ratio`
are not (the latter multiplies by `sqrt(252)`, which leaves ℚ), and no claim
mentions them. -/

/-- One daily candle of the downloaded series (only the fields the loop
reads: the index date and the Close column; Volume is carried but unread). -/
structure Bar where
  date : String
  close : ℚ
  volume : ℚ

/-- `TradeRecord` dataclass (engine.py lines 30-40).  `entry_date` is
`Option` because the engine passes the position's possibly-unset date. -/
structure TradeRecord where
  entry_date : Option String
  exit_date : Option String
  symbol : String
  action : String
  entry_price : ℚ
  exit_price : Option ℚ
  quantity : ℚ
  pnl : Option ℚ
  pct_return : Option ℚ

/-- The mutable loop state of `run_backtest` (engine.py lines 141-168). -/
structure BtState where
  balance : ℚ
  position_open : Bool
  position_entry_price : ℚ
  position_quantity : ℚ
  position_entry_date : Option String
  trades : List TradeRecord
  equity_curve : List (String × ℚ)
  daily_portfolio_values : List ℚ

/-- `initial_balance = 10_000.0` (engine.py line 142). -/
def initialBalance : ℚ := 10000

/-- `risk_percent = 0.02` (engine.py line 148). -/
def riskPercent : ℚ := 2/100

/-- Loop state before the first bar. -/
def initState : BtState :=
  { balance := initialBalance, position_open := false, position_entry_price := 0,
    position_quantity := 0, position_entry_date := none, trades := [],
    equity_curve := [], daily_portfolio_values := [] }

/-- `prediction.stop_loss and price <= prediction.stop_loss` (truthiness on
the optional stop). -/
def stopHit (stop : Option ℚ) (price : ℚ) : Bool :=
  match stop with
  | some sl => if sl ≠ 0 ∧ price ≤ sl then true else false
  | none => false

/-- `prediction.target_price and price >= prediction.target_price`. -/
def targetHit (target : Option ℚ) (price : ℚ) : Bool :=
  match target with
  | some tp => if tp ≠ 0 ∧ tp ≤ price then true else false
  | none => false

/-- Exit-condition priority chain (engine.py lines 192-197). -/
def exitReason (pred : TradingPrediction) (price : ℚ) : Option String :=
  if stopHit pred.stop_loss price then some "stop_loss"
  else if targetHit pred.target_price price then some "target"
  else if pred.signal = Signal.SELL then some "sell_signal"
  else none

/-- Position-exit half of the loop body (engine.py lines 187-220): when a
position is open and an exit condition fires, realize pnl at the bar close,
append the closed SELL record, add pnl to the balance and flatten the
position. -/
def exitStep (symbol : String) (st : BtState) (bar : Bar)
    (pred : TradingPrediction) : BtState :=
  let price := bar.close
  if st.position_open then
    match exitReason pred price with
    | some _ =>
        let exit_price := price
        let pnl := (exit_price - st.position_entry_price) * st.position_quantity
        let pct :=
          if st.position_entry_price * st.position_quantity ≠ 0 then
            pnl / (st.position_entry_price * st.position_quantity)
          else 0
        let trade : TradeRecord :=
          { entry_date := st.position_entry_date, exit_date := some bar.date,
            symbol := symbol, action := "SELL",
            entry_price := st.position_entry_price, exit_price := some exit_price,
            quantity := st.position_quantity, pnl := some pnl,
            pct_return := some (pct * 100) }
        { st with
            trades := st.trades ++ [trade]
            balance := st.balance + pnl
            position_open := false
            position_entry_price := 0
            position_quantity := 0
            position_entry_date := none }
    | none => st
  else st

/-- Risk per share for a new BUY (engine.py lines 224-229): entry-to-stop
distance when the stop is truthy and below the price, else 2% of price. -/
def riskPerShare (pred : TradingPrediction) (price : ℚ) : ℚ :=
  match pred.stop_loss with
  | some sl => if sl ≠ 0 ∧ sl < price then price - sl else price * (2/100)
  | none => price * (2/100)

/-- Whether the BUY-sizing branch hits one of its two `continue` statements
(engine.py lines 233-239) on this bar: flat position, BUY signal, and either
non-positive risk per share or a floored quantity of at most 0. -/
def buySkip (st : BtState) (bar : Bar) (pred : TradingPrediction) : Bool :=
  if st.position_open = false ∧ pred.signal = Signal.BUY then
    let rps := riskPerShare pred bar.close
    if rps ≤ 0 then true
    else if ⌊st.balance * riskPercent / rps⌋ ≤ 0 then true
    else false
  else false

/-- Per-bar equity bookkeeping (engine.py lines 260-264): append balance plus
open-position mark-to-market to the equity curve and the daily value list. -/
def appendEquity (st : BtState) (bar : Bar) : BtState :=
  let price := bar.close
  let position_value := if st.position_open then st.position_quantity * price else 0
  let portfolio_value := st.balance + position_value
  { st with
      equity_curve := st.equity_curve ++ [(bar.date, portfolio_value)]
      daily_portfolio_values := st.daily_portfolio_values ++ [portfolio_value] }

/-- Position-entry half of the loop body plus the equity append (engine.py
lines 222-264).  NOTE: the two `continue` statements skip the rest of the
loop body, so a skipped BUY also skips the equity-curve update for the bar. -/
def entryStep (symbol : String) (st : BtState) (bar : Bar)
    (pred : TradingPrediction) : BtState :=
  let price := bar.close
  if st.position_open = false ∧ pred.signal = Signal.BUY then
    let rps := riskPerShare pred price
    if rps ≤ 0 then st
    else
      let qty : ℤ := ⌊st.balance * riskPercent / rps⌋
      if qty ≤ 0 then st
      else
        let trade : TradeRecord :=
          { entry_date := some bar.date, exit_date := none, symbol := symbol,
            action := "BUY", entry_price := price, exit_price := none,
            quantity := (qty : ℚ), pnl := none, pct_return := none }
        appendEquity
          { st with
              position_open := true
              position_entry_price := price
              position_quantity := (qty : ℚ)
              position_entry_date := some bar.date
              trades := st.trades ++ [trade] } bar
  else appendEquity st bar

/-- One iteration of the per-bar loop (engine.py lines 170-264); the
prediction for the bar is given. -/
def stepBar (symbol : String) (st : BtState) (bar : Bar)
    (pred : TradingPrediction) : BtState :=
  entryStep symbol (exitStep symbol st bar pred) bar pred

/-- The whole per-bar loop, folded over the series. -/
def loopFold (symbol : String) (bars : List (Bar × TradingPrediction)) : BtState :=
  bars.foldl (fun st bp => stepBar symbol st bp.1 bp.2) initState

/-- The closed trade appended by the end-of-run force close (engine.py lines
266-283), at the last bar's close price. -/
def forceCloseTrade (symbol : String) (st : BtState) (lastBar : Bar) : TradeRecord :=
  let last_price := lastBar.close
  let pnl := (last_price - st.position_entry_price) * st.position_quantity
  let pct :=
    if st.position_entry_price * st.position_quantity ≠ 0 then
      pnl / (st.position_entry_price * st.position_quantity)
    else 0
  { entry_date := st.position_entry_date, exit_date := some lastBar.date,
    symbol := symbol, action := "SELL", entry_price := st.position_entry_price,
    exit_price := some last_price, quantity := st.position_quantity,
    pnl := some pnl, pct_return := some (pct * 100) }

/-- The outcome of `run_backtest` (metrics dict, trade ledger and equity
curve; engine.py lines 287-330). -/
structure BacktestResult where
  initial_balance : ℚ
  final_balance : ℚ
  total_return_pct : ℚ
  win_rate_pct : ℚ
  closed_trade_count : Nat
  trades : List TradeRecord
  equity_curve : List (String × ℚ)

/-- The pnl values of the closed trades of a ledger (records whose `pnl` is
set). -/
def closedPnl (trades : List TradeRecord) : List ℚ :=
  trades.filterMap (fun t => t.pnl)

/-- Sum of pnl over the closed trades of a ledger. -/
def closedPnlSum (trades : List TradeRecord) : ℚ := (closedPnl trades).sum

/-- `run_backtest` (engine.py lines 130-330) up to, and excluding, the
persistence and CSV-export calls: empty series raises `ValueError`, else run
the loop, force-close a still-open position at the last close, and assemble
metrics. -/
def runBacktest (symbol : String) (bars : List (Bar × TradingPrediction)) :
    Except String BacktestResult :=
  match bars.getLast? with
  | none => Except.error ("No historical data for " ++ symbol)
  | some lastBp =>
      let st0 := loopFold symbol bars
      let st :=
        if st0.position_open then
          let pnl := (lastBp.1.close - st0.position_entry_price) * st0.position_quantity
          { st0 with
              trades := st0.trades ++ [forceCloseTrade symbol st0 lastBp.1]
              balance := st0.balance + pnl }
        else st0
      let closed := closedPnl st.trades
      let wins := closed.filter (fun v => 0 < v)
      Except.ok
        { initial_balance := initialBalance
          final_balance := st.balance
          total_return_pct := (st.balance / initialBalance - 1) * 100
          win_rate_pct :=
            if closed ≠ [] then ((wins.length : ℚ) / (closed.length : ℚ)) * 100 else 0
          closed_trade_count := closed.length
          trades := st.trades
          equity_curve := st.equity_curve }

/-- Number of bars on which the BUY-sizing `continue` fires over a run,
replaying the same loop state. -/
def skipCountFold (symbol : String) (bars : List (Bar × TradingPrediction)) :
    BtState × Nat :=
  bars.foldl
    (fun acc bp =>
      (stepBar symbol acc.1 bp.1 bp.2,
       acc.2 + (if buySkip (exitStep symbol acc.1 bp.1 bp.2) bp.1 bp.2 then 1 else 0)))
    (initState, 0)

/-- The skip count alone. -/
def skipCount (symbol : String) (bars : List (Bar × TradingPrediction)) : Nat :=
  (skipCountFold symbol bars).2

/-- `run_backtest` including its call to `_save_backtest_result` (engine.py
line 319): the sqlite write is a parameter carrying its outcome (the new
backtest id, or the raised error).  The call site has no `try/except`, so a
save failure propagates out of `run_backtest`. -/
def runBacktestAndSave (symbol : String) (bars : List (Bar × TradingPrediction))
    (saveOutcome : Except String Nat) : Except String (Nat × BacktestResult) :=
  match runBacktest symbol bars with
  | Except.error e => Except.error e
  | Except.ok r =>
      match saveOutcome with
      | Except.error e => Except.error e
      | Except.ok backtest_id => Except.ok (backtest_id, r)

/-! ## Concrete inputs used by witnesses and counterexamples -/

/-- An indicator map matching the spec's fallback-scorer example: RSI 25,
EMA_12 above EMA_26, MACD above its signal line, no ATR. -/
def sampleIndicators : String → Option ℚ := fun k =>
  if k = "RSI" then some 25
  else if k = "EMA_12" then some 10
  else if k = "EMA_26" then some 9
  else if k = "MACD" then some 1
  else if k = "MACD_Signal" then some (1/2)
  else none

/-- A concrete snapshot (current price 100, volume at 1.8x average). -/
def sampleMarketData : MarketData :=
  { symbol := "AAPL", current_price := 100,
    technical_indicators := sampleIndicators,
    volume_profile := { avg_volume := 1000, current_volume := 1800, volume_rel := 9/5 },
    volatility := 1/4 }

/-- The same snapshot for the symbol "XXX". -/
def xxxMarketData : MarketData := { sampleMarketData with symbol := "XXX" }

/-- Concrete positive sentiment (score 0.4). -/
def sampleNews : NewsData :=
  { headlines := ["h1"], sentiment_score := 2/5, sentiment_label := "POSITIVE",
    news_count := 1 }

/-- Indicator map holding every scorer input at exactly 0.0. -/
def zeroIndicators : String → Option ℚ := fun k =>
  if k = "RSI" then some 0
  else if k = "EMA_12" then some 0
  else if k = "EMA_26" then some 0
  else if k = "MACD" then some 0
  else if k = "MACD_Signal" then some 0
  else none

/-- Snapshot whose indicators are all present but zero. -/
def zeroMarketData : MarketData :=
  { sampleMarketData with technical_indicators := zeroIndicators }

/-- Neutral sentiment at exactly 0. -/
def zeroNews : NewsData := { sampleNews with sentiment_score := 0, sentiment_label := "NEUTRAL" }

/-- A directional candidate with entry and stop set (entry 100, stop 96). -/
def sampleBuyPrediction : TradingPrediction :=
  { symbol := "AAPL", signal := Signal.BUY, confidence := 95, reasoning := [],
    entry_price := some 100, stop_loss := some 96, target_price := some 106,
    timeframe := "1d", risk_level := "MEDIUM" }

/-- The same candidate for the symbol "XXX". -/
def xxxPrediction : TradingPrediction := { sampleBuyPrediction with symbol := "XXX" }

/-- The spec's risk-fraction example: entry 100, stop 40 (fraction 0.6 on a
price of 100). -/
def riskyPrediction : TradingPrediction :=
  { sampleBuyPrediction with confidence := 90, stop_loss := some 40, target_price := none }

/-- A decoded oracle payload whose entry price is exactly 0.0 (present but
falsy) with a wide stop. -/
def zeroEntryPayload : GptPayload :=
  { signal := some "HOLD", confidence := some 80, reasoning := some ["oracle says wait"],
    entry_price := some 0, stop_loss := some 60, target_price := none,
    risk_level := some "MEDIUM" }

/-- The candidate `_parse_gpt_response` builds from `zeroEntryPayload`. -/
def zeroEntryCandidate : TradingPrediction :=
  parseGptResponse (some zeroEntryPayload) "AAPL" "1d"

/-- A decoded payload whose signal string is not a `Signal` member. -/
def invalidSignalPayload : GptPayload :=
  { signal := some "LONG", confidence := some 88, reasoning := some ["r"],
    entry_price := some 10, stop_loss := some 9, target_price := some 12,
    risk_level := some "LOW" }

/-- One daily bar closing at 100. -/
def sampleBar : Bar := { date := "2024-01-02", close := 100, volume := 1000 }

/-- A bar so expensive that 2% of the initial balance buys no whole share
against a 2%-of-price risk per share. -/
def bigBar : Bar := { date := "2024-01-02", close := 20000, volume := 10 }

/-- A BUY prediction with no stop-loss (risk per share falls back to 2% of
price). -/
def buyNoStopPrediction : TradingPrediction :=
  { sampleBuyPrediction with stop_loss := none, target_price := none }

/-! ## Guardrail pipeline lemmas -/

theorem missingStopRule_entry (p : TradingPrediction) :
    (missingStopRule p).1.entry_price = p.entry_price := by
  unfold missingStopRule; split <;> rfl

theorem missingStopRule_stop (p : TradingPrediction) :
    (missingStopRule p).1.stop_loss = p.stop_loss := by
  unfold missingStopRule; split <;> rfl

theorem riskFractionRule_signal (md : Option MarketData)
    (pf : TradingPrediction × List String) :
    (riskFractionRule md pf).1.signal = pf.1.signal := by
  unfold riskFractionRule; split <;> first | rfl | (split <;> rfl)

theorem riskFractionRule_entry (md : Option MarketData)
    (pf : TradingPrediction × List String) :
    (riskFractionRule md pf).1.entry_price = pf.1.entry_price := by
  unfold riskFractionRule; split <;> first | rfl | (split <;> rfl)

theorem riskFractionRule_stop (md : Option MarketData)
    (pf : TradingPrediction × List String) :
    (riskFractionRule md pf).1.stop_loss = pf.1.stop_loss := by
  unfold riskFractionRule; split <;> first | rfl | (split <;> rfl)

theorem confidenceCapRule_signal (g : AgentGuardrail)
    (pf : TradingPrediction × List String) :
    (confidenceCapRule g pf).1.signal = pf.1.signal := by
  unfold confidenceCapRule; split <;> rfl

theorem confidenceCapRule_entry (g : AgentGuardrail)
    (pf : TradingPrediction × List String) :
    (confidenceCapRule g pf).1.entry_price = pf.1.entry_price := by
  unfold confidenceCapRule; split <;> rfl

theorem confidenceCapRule_stop (g : AgentGuardrail)
    (pf : TradingPrediction × List String) :
    (confidenceCapRule g pf).1.stop_loss = pf.1.stop_loss := by
  unfold confidenceCapRule; split <;> rfl

theorem missingStopRule_directional (p : TradingPrediction)
    (h : (missingStopRule p).1.signal = Signal.BUY ∨
      (missingStopRule p).1.signal = Signal.SELL) :
    (missingStopRule p).1.entry_price.isSome ∧
      (missingStopRule p).1.stop_loss.isSome := by
  by_cases hc : (p.signal = Signal.BUY ∨ p.signal = Signal.SELL) ∧
      (p.entry_price = none ∨ p.stop_loss = none)
  · unfold missingStopRule at h
    rw [if_pos hc] at h
    simp at h
  · unfold missingStopRule at h ⊢
    rw [if_neg hc] at h ⊢
    have hB : ¬(p.entry_price = none ∨ p.stop_loss = none) := fun hb => hc ⟨h, hb⟩
    push_neg at hB
    exact ⟨Option.isSome_iff_ne_none.mpr hB.1, Option.isSome_iff_ne_none.mpr hB.2⟩

theorem enforce_directional (g : AgentGuardrail) (p : TradingPrediction)
    (md : Option MarketData)
    (h : (g.enforce p md).1.signal = Signal.BUY ∨
      (g.enforce p md).1.signal = Signal.SELL) :
    (g.enforce p md).1.entry_price.isSome ∧ (g.enforce p md).1.stop_loss.isSome := by
  by_cases hb : effSymbol p md ≠ "" ∧ pyUpper (effSymbol p md) ∈ g.banned_symbols
  · unfold AgentGuardrail.enforce at h
    rw [if_pos hb] at h
    simp at h
  · unfold AgentGuardrail.enforce at h ⊢
    rw [if_neg hb] at h ⊢
    rw [confidenceCapRule_signal, riskFractionRule_signal] at h
    rw [confidenceCapRule_entry, riskFractionRule_entry, confidenceCapRule_stop,
      riskFractionRule_stop]
    exact missingStopRule_directional p h

theorem missingStopRule_conf_bounds (p : TradingPrediction)
    (h0 : 0 ≤ p.confidence) (h1 : p.confidence ≤ 100) :
    0 ≤ (missingStopRule p).1.confidence ∧ (missingStopRule p).1.confidence ≤ 100 := by
  unfold missingStopRule; split
  · exact ⟨le_min h0 (by norm_num), le_trans (min_le_left _ _) h1⟩
  · exact ⟨h0, h1⟩

theorem riskFractionRule_conf_bounds (md : Option MarketData)
    (pf : TradingPrediction × List String)
    (h0 : 0 ≤ pf.1.confidence) (h1 : pf.1.confidence ≤ 100) :
    0 ≤ (riskFractionRule md pf).1.confidence ∧
      (riskFractionRule md pf).1.confidence ≤ 100 := by
  unfold riskFractionRule
  split
  · split
    · exact ⟨le_min h0 (by norm_num), le_trans (min_le_left _ _) h1⟩
    · exact ⟨h0, h1⟩
  · exact ⟨h0, h1⟩

theorem confidenceCapRule_conf_bounds (g : AgentGuardrail)
    (pf : TradingPrediction × List String)
    (h0 : 0 ≤ pf.1.confidence) (h1 : pf.1.confidence ≤ 100)
    (hg0 : 0 ≤ g.max_confidence) (hg1 : g.max_confidence ≤ 100) :
    0 ≤ (confidenceCapRule g pf).1.confidence ∧
      (confidenceCapRule g pf).1.confidence ≤ 100 := by
  unfold confidenceCapRule; split
  · exact ⟨hg0, hg1⟩
  · exact ⟨h0, h1⟩

theorem enforce_conf_bounds (g : AgentGuardrail) (p : TradingPrediction)
    (md : Option MarketData) (h0 : 0 ≤ p.confidence) (h1 : p.confidence ≤ 100)
    (hg0 : 0 ≤ g.max_confidence) (hg1 : g.max_confidence ≤ 100) :
    0 ≤ (g.enforce p md).1.confidence ∧ (g.enforce p md).1.confidence ≤ 100 := by
  unfold AgentGuardrail.enforce
  split
  · exact ⟨le_refl 0, by norm_num⟩
  · have h2 := missingStopRule_conf_bounds p h0 h1
    have h3 := riskFractionRule_conf_bounds md (missingStopRule p) h2.1 h2.2
    exact confidenceCapRule_conf_bounds g _ h3.1 h3.2 hg0 hg1

theorem finalizePrediction_signal (e : TradingPrediction × List String) :
    (finalizePrediction e).signal = e.1.signal := by
  unfold finalizePrediction; split <;> rfl

theorem finalizePrediction_confidence (e : TradingPrediction × List String) :
    (finalizePrediction e).confidence = e.1.confidence := by
  unfold finalizePrediction; split <;> rfl

theorem finalizePrediction_entry (e : TradingPrediction × List String) :
    (finalizePrediction e).entry_price = e.1.entry_price := by
  unfold finalizePrediction; split <;> rfl

theorem finalizePrediction_stop (e : TradingPrediction × List String) :
    (finalizePrediction e).stop_loss = e.1.stop_loss := by
  unfold finalizePrediction; split <;> rfl

theorem parseGptResponse_conf_bounds (payload : Option GptPayload) (s tf : String) :
    0 ≤ (parseGptResponse payload s tf).confidence ∧
      (parseGptResponse payload s tf).confidence ≤ 100 := by
  unfold parseGptResponse
  split
  · exact ⟨by norm_num [parseErrorPrediction], by norm_num [parseErrorPrediction]⟩
  · split
    · exact ⟨by norm_num [parseErrorPrediction], by norm_num [parseErrorPrediction]⟩
    · exact ⟨le_min (le_max_right _ _) (by norm_num), min_le_right _ _⟩

theorem generateFallbackPrediction_confidence (md : MarketData) (news : NewsData)
    (tf : String) :
    (generateFallbackPrediction md news tf).confidence =
      (if 3 ≤ fallbackScore md news then min (70 + (fallbackScore md news : ℚ) * 5) 95
       else if fallbackScore md news ≤ -3 then
         min (70 + (|fallbackScore md news| : ℚ) * 5) 95
       else 50) := rfl

theorem generateFallbackPrediction_signal (md : MarketData) (news : NewsData)
    (tf : String) :
    (generateFallbackPrediction md news tf).signal =
      (if 3 ≤ fallbackScore md news then Signal.BUY
       else if fallbackScore md news ≤ -3 then Signal.SELL
       else Signal.HOLD) := rfl

theorem generateFallbackPrediction_conf_bounds (md : MarketData) (news : NewsData)
    (tf : String) :
    0 ≤ (generateFallbackPrediction md news tf).confidence ∧
      (generateFallbackPrediction md news tf).confidence ≤ 100 := by
  rw [generateFallbackPrediction_confidence]
  split_ifs with h1 h2
  · have hq : (3:ℚ) ≤ (fallbackScore md news : ℚ) := by exact_mod_cast h1
    exact ⟨le_min (by linarith) (by norm_num),
      le_trans (min_le_right _ _) (by norm_num)⟩
  · have hq : (0:ℚ) ≤ (|fallbackScore md news| : ℚ) := by positivity
    exact ⟨le_min (by linarith) (by norm_num),
      le_trans (min_le_right _ _) (by norm_num)⟩
  · norm_num

theorem candidatePrediction_conf_bounds (hk : Bool) (md : MarketData)
    (news : NewsData) (oracle : OracleOutcome) (s tf : String) :
    0 ≤ (candidatePrediction hk md news oracle s tf).confidence ∧
      (candidatePrediction hk md news oracle s tf).confidence ≤ 100 := by
  unfold candidatePrediction
  split
  · cases oracle with
    | callFailure => exact generateFallbackPrediction_conf_bounds md news tf
    | responded payload => exact parseGptResponse_conf_bounds payload s tf
  · exact generateFallbackPrediction_conf_bounds md news tf

/-! ## Claim theorems -/

/-- Claim C1 (counterexample): `analyze_asset` constructs its guardrail with
all defaults, so the banned set is empty and the symbol "XXX" is NOT forced
to HOLD/0 — on a snapshot whose indicators score 5, `analyze("XXX", "1d")`
returns a BUY at confidence 95 with no banned-symbol note. -/
theorem analyze_xxx_not_forced_to_hold :
    (analyzeAsset false (some xxxMarketData) sampleNews OracleOutcome.callFailure
      "XXX" "1d").decision.signal = Signal.BUY ∧
    (analyzeAsset false (some xxxMarketData) sampleNews OracleOutcome.callFailure
      "XXX" "1d").decision.confidence = 95 := by
  constructor <;>
    norm_num +decide [analyzeAsset, candidatePrediction, finalizePrediction,
      generateFallbackPrediction, fallbackScore, rsiRule, emaRule, macdRule,
      sentimentRule, fallbackReasoningLines, volumeLines, xxxMarketData,
      sampleMarketData, sampleNews, sampleIndicators, AgentGuardrail.enforce,
      mkAgentGuardrail, effSymbol, missingStopRule, riskFractionRule,
      confidenceCapRule, pyUpper, pyUpperChar, pyStrip, min_def]

/-- Claim C1 (amended): the banned-symbol rule of `AgentGuardrail.enforce`
forces signal=HOLD, confidence=0, prepends the banned-symbol note and
short-circuits the remaining rules, for any symbol whose uppercase form is in
the guardrail's banned set; but the guardrail `analyze_asset` actually uses
is built with the default empty banned set, so no symbol — "XXX" included —
ever triggers it. -/
theorem banned_symbol_forces_hold (g : AgentGuardrail) (p : TradingPrediction)
    (md : Option MarketData) (h1 : effSymbol p md ≠ "")
    (h2 : pyUpper (effSymbol p md) ∈ g.banned_symbols) :
    g.enforce p md =
      ({ p with
          signal := Signal.HOLD
          confidence := 0
          reasoning := bannedNote :: p.reasoning }, ["banned_symbol"]) := by
  unfold AgentGuardrail.enforce
  rw [if_pos ⟨h1, h2⟩]

/-- Witness for C1's amended theorem: a guardrail built with banned list
["XXX"] forces the "XXX" prediction to the banned-symbol result. -/
theorem banned_symbol_forces_hold_witness :
    effSymbol xxxPrediction none ≠ "" ∧
    pyUpper (effSymbol xxxPrediction none) ∈
      (mkAgentGuardrail 95 (5/100) ["XXX"]).banned_symbols ∧
    ((mkAgentGuardrail 95 (5/100) ["XXX"]).enforce xxxPrediction none).2 =
      ["banned_symbol"] := by
  refine ⟨by decide, by decide, ?_⟩
  rw [banned_symbol_forces_hold (mkAgentGuardrail 95 (5/100) ["XXX"]) xxxPrediction none
    (by decide) (by decide)]

/-- Claim C2 (counterexample): when the snapshot fetch fails, the safe HOLD
decision is returned WITHOUT being written to the cache — the outer `except`
returns before the cache-write line. -/
theorem snapshot_failure_not_cached :
    (analyzeAsset true none sampleNews OracleOutcome.callFailure "AAPL" "1d").cacheWrite
      = none := rfl

/-- Claim C2 (amended): a failed snapshot fetch is terminal for the cycle:
`analyze` returns the safe Decision (HOLD, confidence 30, reasoning stating
the market data could not be fetched), but does NOT write it to the cache. -/
theorem snapshot_failure_safe_hold (hk : Bool) (news : NewsData)
    (oracle : OracleOutcome) (s tf : String) :
    (analyzeAsset hk none news oracle s tf).decision.signal = Signal.HOLD ∧
    (analyzeAsset hk none news oracle s tf).decision.confidence = 30 ∧
    (analyzeAsset hk none news oracle s tf).decision.reasoning =
      ["Analysis failed: " ++ ("Unable to fetch market data for " ++ s)] ∧
    (analyzeAsset hk none news oracle s tf).cacheWrite = none :=
  ⟨rfl, rfl, rfl, rfl⟩

/-- Claim C3 (counterexample): a decode failure of the oracle response does
NOT route to the rule-based fallback scorer: on the sample snapshot the
fallback route yields confidence 95 (BUY), while the decode-failure route
yields the parser's safe HOLD at confidence 50. -/
theorem parse_failure_not_fallback :
    (analyzeAsset true (some sampleMarketData) sampleNews
      (OracleOutcome.responded none) "AAPL" "1d").decision.confidence = 50 ∧
    (analyzeAsset false (some sampleMarketData) sampleNews
      (OracleOutcome.responded none) "AAPL" "1d").decision.confidence = 95 := by
  constructor <;>
    norm_num +decide [analyzeAsset, candidatePrediction, finalizePrediction,
      parseGptResponse, parseErrorPrediction, generateFallbackPrediction,
      fallbackScore, rsiRule, emaRule, macdRule, sentimentRule,
      fallbackReasoningLines, volumeLines, sampleMarketData, sampleNews,
      sampleIndicators, AgentGuardrail.enforce, mkAgentGuardrail, effSymbol,
      missingStopRule, riskFractionRule, confidenceCapRule, pyUpper, pyUpperChar,
      pyStrip, min_def]

/-- Claim C3 (amended): an oracle call error (or timeout) routes to the
deterministic fallback scorer — `analyze` behaves exactly as if no oracle
were configured; a response that fails to decode, or whose signal fails enum
validation, instead yields the parser's own safe HOLD/50 prediction.  In
either case `analyze` returns a Decision and no error is surfaced. -/
theorem oracle_failure_routes (md : MarketData) (news : NewsData) (s tf : String) :
    (analyzeAsset true (some md) news OracleOutcome.callFailure s tf =
      analyzeAsset false (some md) news OracleOutcome.callFailure s tf) ∧
    ((analyzeAsset true (some md) news (OracleOutcome.responded none) s tf).decision =
      parseErrorPrediction s tf) ∧
    (∀ d : GptPayload, signalFromString (d.signal.getD "HOLD") = none →
      parseGptResponse (some d) s tf = parseErrorPrediction s tf) := by
  refine ⟨rfl, ?_, ?_⟩
  · show finalizePrediction ((mkAgentGuardrail).enforce
      (parseGptResponse none s tf) (some md)) = parseErrorPrediction s tf
    have henf : (mkAgentGuardrail).enforce (parseGptResponse none s tf) (some md) =
        (parseErrorPrediction s tf, []) := by
      unfold AgentGuardrail.enforce
      rw [if_neg (fun hb => absurd hb.2 (by simp [mkAgentGuardrail]))]
      unfold parseGptResponse missingStopRule
      rw [if_neg (fun hc => by
        rcases hc.1 with h | h <;> simp [parseErrorPrediction] at h)]
      unfold riskFractionRule
      show confidenceCapRule mkAgentGuardrail (parseErrorPrediction s tf, []) = _
      unfold confidenceCapRule
      rw [if_neg (by norm_num [mkAgentGuardrail, parseErrorPrediction])]
    rw [henf]
    unfold finalizePrediction
    rw [if_neg (by simp)]
  · intro d hd
    simp only [parseGptResponse, hd]

/-- Witness for C3's amended theorem: a payload whose signal string "LONG" is
not a `Signal` member parses to the safe HOLD/50 prediction. -/
theorem oracle_failure_routes_witness :
    parseGptResponse (some invalidSignalPayload) "AAPL" "1d" =
      parseErrorPrediction "AAPL" "1d" :=
  (oracle_failure_routes sampleMarketData sampleNews "AAPL" "1d").2.2
    invalidSignalPayload (by decide)

/-- Claim C5: every Decision `analyze` returns has confidence within [0,100],
and a BUY/SELL Decision carries both an entry price and a stop loss
(guardrail rule 2 forces HOLD otherwise; the snapshot-failure decision is a
HOLD at 30). -/
theorem analyze_invariants (hk : Bool) (marketData : Option MarketData)
    (news : NewsData) (oracle : OracleOutcome) (s tf : String) :
    0 ≤ (analyzeAsset hk marketData news oracle s tf).decision.confidence ∧
    (analyzeAsset hk marketData news oracle s tf).decision.confidence ≤ 100 ∧
    (((analyzeAsset hk marketData news oracle s tf).decision.signal = Signal.BUY ∨
        (analyzeAsset hk marketData news oracle s tf).decision.signal = Signal.SELL) →
      (analyzeAsset hk marketData news oracle s tf).decision.entry_price.isSome ∧
      (analyzeAsset hk marketData news oracle s tf).decision.stop_loss.isSome) := by
  cases marketData with
  | none =>
      refine ⟨by norm_num [analyzeAsset, safeErrorPrediction],
        by norm_num [analyzeAsset, safeErrorPrediction], ?_⟩
      intro h
      simp [analyzeAsset, safeErrorPrediction] at h
  | some md =>
      have hd : (analyzeAsset hk (some md) news oracle s tf).decision =
          finalizePrediction ((mkAgentGuardrail).enforce
            (candidatePrediction hk md news oracle s tf) (some md)) := rfl
      rw [hd, finalizePrediction_confidence, finalizePrediction_signal,
        finalizePrediction_entry, finalizePrediction_stop]
      have hc := candidatePrediction_conf_bounds hk md news oracle s tf
      have hb := enforce_conf_bounds mkAgentGuardrail
        (candidatePrediction hk md news oracle s tf) (some md) hc.1 hc.2
        (by norm_num [mkAgentGuardrail]) (by norm_num [mkAgentGuardrail])
      exact ⟨hb.1, hb.2, fun h => enforce_directional _ _ _ h⟩

/-- Witness for C5: on the sample snapshot the returned Decision is a BUY, and
the theorem yields that entry and stop are present. -/
theorem analyze_invariants_witness :
    (analyzeAsset false (some sampleMarketData) sampleNews OracleOutcome.callFailure
      "AAPL" "1d").decision.entry_price.isSome ∧
    (analyzeAsset false (some sampleMarketData) sampleNews OracleOutcome.callFailure
      "AAPL" "1d").decision.stop_loss.isSome :=
  (analyze_invariants false (some sampleMarketData) sampleNews
    OracleOutcome.callFailure "AAPL" "1d").2.2
    (Or.inl (by
      norm_num +decide [analyzeAsset, candidatePrediction, finalizePrediction,
        generateFallbackPrediction, fallbackScore, rsiRule, emaRule, macdRule,
        sentimentRule, fallbackReasoningLines, volumeLines, sampleMarketData,
        sampleNews, sampleIndicators, AgentGuardrail.enforce, mkAgentGuardrail,
        effSymbol, missingStopRule, riskFractionRule, confidenceCapRule, pyUpper,
        pyUpperChar, pyStrip, min_def]))

/-- Claim C8 (counterexample): "present" is not enough — the risk-fraction
rule tests truthiness, so an entry price that is present but exactly 0.0
(with stop 60 on a price of 100, risk fraction 0.6 > 0.5) skips the rule: no
`excessive_risk_fraction` flag, confidence stays 80. -/
theorem zero_entry_skips_risk_rule :
    zeroEntryCandidate.entry_price = some 0 ∧
    zeroEntryCandidate.stop_loss = some 60 ∧
    sampleMarketData.current_price = 100 ∧
    1/2 < |(0:ℚ) - 60| / 100 ∧
    ((mkAgentGuardrail).enforce zeroEntryCandidate (some sampleMarketData)).2 = [] ∧
    ((mkAgentGuardrail).enforce zeroEntryCandidate (some sampleMarketData)).1.confidence
      = 80 := by
  refine ⟨?_, ?_, rfl, by norm_num, ?_, ?_⟩ <;>
    norm_num +decide [zeroEntryCandidate, zeroEntryPayload, parseGptResponse,
      signalFromString, AgentGuardrail.enforce, mkAgentGuardrail, effSymbol,
      missingStopRule, riskFractionRule, confidenceCapRule, pyUpper, pyUpperChar,
      pyStrip, sampleMarketData, sampleIndicators, min_def, max_def]

/-- Claim C8 (amended): when entry price and stop loss are present AND
nonzero (the code tests truthiness, so a present 0.0 skips the rule) and the
snapshot price is positive with `|entry - stop| / current > 0.5`, the default
guardrail caps confidence at 40 and records `excessive_risk_fraction`; with a
missing entry price the flag is never recorded — the rule is skipped, not
fatal. -/
theorem risk_fraction_guardrail :
    (∀ (p : TradingPrediction) (md : MarketData) (ep sl : ℚ),
      p.entry_price = some ep → p.stop_loss = some sl → ep ≠ 0 → sl ≠ 0 →
      0 < md.current_price → 1/2 < |ep - sl| / md.current_price →
      ((mkAgentGuardrail).enforce p (some md)).1.confidence ≤ 40 ∧
      "excessive_risk_fraction" ∈ ((mkAgentGuardrail).enforce p (some md)).2) ∧
    (∀ (p : TradingPrediction) (md : MarketData), p.entry_price = none →
      "excessive_risk_fraction" ∉ ((mkAgentGuardrail).enforce p (some md)).2) := by
  constructor
  · intro p md ep sl hep hsl hep0 hsl0 hcp hfrac
    unfold AgentGuardrail.enforce
    rw [if_neg (fun hb => absurd hb.2 (by simp [mkAgentGuardrail]))]
    have hq1 : (missingStopRule p).1.stop_loss = some sl := by
      rw [missingStopRule_stop]; exact hsl
    have hq2 : (missingStopRule p).1.entry_price = some ep := by
      rw [missingStopRule_entry]; exact hep
    have hrisk : riskFractionRule (some md) (missingStopRule p) =
        ({ (missingStopRule p).1 with
            confidence := min (missingStopRule p).1.confidence 40
            reasoning := riskNote :: (missingStopRule p).1.reasoning },
         (missingStopRule p).2 ++ ["excessive_risk_fraction"]) := by
      simp only [riskFractionRule, hq1, hq2]
      rw [if_pos ⟨ne_of_gt hcp, hsl0, hep0, hcp, hfrac⟩]
    rw [hrisk]
    unfold confidenceCapRule
    rw [if_neg (by norm_num [mkAgentGuardrail])]
    exact ⟨min_le_right _ _, by simp⟩
  · intro p md hep
    unfold AgentGuardrail.enforce
    split
    · simp
    · have hq2 : (missingStopRule p).1.entry_price = none := by
        rw [missingStopRule_entry]; exact hep
      have hrisk : riskFractionRule (some md) (missingStopRule p) =
          missingStopRule p := by
        rcases hstop : (missingStopRule p).1.stop_loss with _ | sl
        · simp only [riskFractionRule, hstop]
        · simp only [riskFractionRule, hstop, hq2]
      rw [hrisk]
      have hmsr : (missingStopRule p).2 = [] ∨
          (missingStopRule p).2 = ["missing_entry_or_stop"] := by
        unfold missingStopRule; split
        · exact Or.inr rfl
        · exact Or.inl rfl
      unfold confidenceCapRule
      split <;> rcases hmsr with hm | hm <;> simp [hm]

/-- Witness for C8's amended theorem: the spec's example — entry 100, stop 40
on a current price of 100 (risk fraction 0.6) — is capped at 40 and flagged. -/
theorem risk_fraction_guardrail_witness :
    ((mkAgentGuardrail).enforce riskyPrediction (some sampleMarketData)).1.confidence
        ≤ 40 ∧
    "excessive_risk_fraction" ∈
      ((mkAgentGuardrail).enforce riskyPrediction (some sampleMarketData)).2 :=
  risk_fraction_guardrail.1 riskyPrediction sampleMarketData 100 40 rfl rfl
    (by norm_num) (by norm_num) (by norm_num [sampleMarketData]) (by norm_num [sampleMarketData])

/-- Claim C4: the fallback scorer maps score ≥ 3 to BUY and score ≤ -3 to
SELL, each at confidence `min(70 + 5·|score|, 95)`, and everything between to
HOLD at confidence 50. -/
theorem fallback_score_to_signal (md : MarketData) (news : NewsData) (tf : String) :
    (3 ≤ fallbackScore md news →
      (generateFallbackPrediction md news tf).signal = Signal.BUY ∧
      (generateFallbackPrediction md news tf).confidence =
        min (70 + 5 * (|fallbackScore md news| : ℚ)) 95) ∧
    (fallbackScore md news ≤ -3 →
      (generateFallbackPrediction md news tf).signal = Signal.SELL ∧
      (generateFallbackPrediction md news tf).confidence =
        min (70 + 5 * (|fallbackScore md news| : ℚ)) 95) ∧
    (-3 < fallbackScore md news → fallbackScore md news < 3 →
      (generateFallbackPrediction md news tf).signal = Signal.HOLD ∧
      (generateFallbackPrediction md news tf).confidence = 50) := by
  rw [generateFallbackPrediction_signal, generateFallbackPrediction_confidence]
  refine ⟨fun h => ?_, fun h => ?_, fun h1 h2 => ?_⟩
  · rw [if_pos h, if_pos h]
    refine ⟨rfl, ?_⟩
    have hz : (0:ℚ) ≤ (fallbackScore md news : ℚ) := by
      exact_mod_cast (by linarith : (0:ℤ) ≤ fallbackScore md news)
    rw [abs_of_nonneg hz]
    ring_nf
  · have hn : ¬ (3 ≤ fallbackScore md news) := by linarith
    rw [if_neg hn, if_pos h, if_neg hn, if_pos h]
    refine ⟨rfl, ?_⟩
    ring_nf
  · have hn3 : ¬ (3 ≤ fallbackScore md news) := by linarith
    have hnm3 : ¬ (fallbackScore md news ≤ -3) := by linarith
    rw [if_neg hn3, if_neg hnm3, if_neg hn3, if_neg hnm3]
    exact ⟨rfl, rfl⟩

/-- Witness for C4: the spec's example snapshot (RSI 25, EMA12 > EMA26,
MACD > signal, sentiment 0.4) scores 2+1+1+1 = 5, giving BUY at
confidence 95. -/
theorem fallback_score_to_signal_witness :
    fallbackScore sampleMarketData sampleNews = 5 ∧
    (generateFallbackPrediction sampleMarketData sampleNews "1d").signal =
      Signal.BUY ∧
    (generateFallbackPrediction sampleMarketData sampleNews "1d").confidence = 95 := by
  have hs : fallbackScore sampleMarketData sampleNews = 5 := by
    norm_num +decide [fallbackScore, rsiRule, emaRule, macdRule, sentimentRule,
      sampleMarketData, sampleNews, sampleIndicators]
  have h := (fallback_score_to_signal sampleMarketData sampleNews "1d").1
    (by rw [hs]; norm_num)
  refine ⟨hs, h.1, ?_⟩
  rw [h.2, hs]
  norm_num [min_def]

/-- Claim C10: an indicator that is present but exactly 0.0 is treated as
absent by the fallback scorer — RSI 0 contributes nothing (instead of the +2
oversold bonus), a zero MACD, MACD_Signal, EMA_12 or EMA_26 skips its rule
entirely, and a sentiment score of exactly 0 contributes nothing. -/
theorem zero_indicator_treated_absent (md : MarketData) (news : NewsData) :
    (md.technical_indicators "RSI" = some 0 →
      rsiRule md.technical_indicators = (0, [])) ∧
    (md.technical_indicators "EMA_12" = some 0 →
      emaRule md.technical_indicators = (0, [])) ∧
    (md.technical_indicators "EMA_26" = some 0 →
      emaRule md.technical_indicators = (0, [])) ∧
    (md.technical_indicators "MACD" = some 0 →
      macdRule md.technical_indicators = (0, [])) ∧
    (md.technical_indicators "MACD_Signal" = some 0 →
      macdRule md.technical_indicators = (0, [])) ∧
    (news.sentiment_score = 0 → sentimentRule news = (0, [])) := by
  refine ⟨fun h => ?_, fun h => ?_, fun h => ?_, fun h => ?_, fun h => ?_, fun h => ?_⟩
  · simp [rsiRule, h]
  · rcases h26 : md.technical_indicators "EMA_26" with _ | b <;>
      simp [emaRule, h, h26]
  · rcases h12 : md.technical_indicators "EMA_12" with _ | a <;>
      simp [emaRule, h, h12]
  · rcases hsig : md.technical_indicators "MACD_Signal" with _ | b <;>
      simp [macdRule, h, hsig]
  · rcases hm : md.technical_indicators "MACD" with _ | a <;>
      simp [macdRule, h, hm]
  · simp [sentimentRule, h]
    norm_num

/-- Witness for C10: on a snapshot whose five scorer indicators are all
present at 0.0 and neutral sentiment 0, every rule contributes (0, []). -/
theorem zero_indicator_treated_absent_witness :
    rsiRule zeroMarketData.technical_indicators = (0, []) ∧
    emaRule zeroMarketData.technical_indicators = (0, []) ∧
    macdRule zeroMarketData.technical_indicators = (0, []) ∧
    sentimentRule zeroNews = (0, []) :=
  ⟨(zero_indicator_treated_absent zeroMarketData zeroNews).1 rfl,
   (zero_indicator_treated_absent zeroMarketData zeroNews).2.1 rfl,
   (zero_indicator_treated_absent zeroMarketData zeroNews).2.2.2.1 rfl,
   (zero_indicator_treated_absent zeroMarketData zeroNews).2.2.2.2.2 rfl⟩

/-! ## Backtest ledger and equity-curve lemmas -/

/-- The ledger balance law as a loop invariant. -/
def ledgerOk (st : BtState) : Prop :=
  st.balance = initialBalance + closedPnlSum st.trades

theorem closedPnlSum_append (ts : List TradeRecord) (t : TradeRecord) :
    closedPnlSum (ts ++ [t]) = closedPnlSum ts + t.pnl.getD 0 := by
  unfold closedPnlSum closedPnl
  rw [List.filterMap_append, List.sum_append]
  rcases h : t.pnl with _ | v <;> simp [h]

theorem exitStep_ledger (symbol : String) (st : BtState) (bar : Bar)
    (pred : TradingPrediction) (h : ledgerOk st) :
    ledgerOk (exitStep symbol st bar pred) := by
  unfold ledgerOk at h ⊢
  simp only [exitStep]
  split
  · split
    · show st.balance + _ = initialBalance + closedPnlSum (st.trades ++ [_])
      rw [closedPnlSum_append, h]
      simp
      ring
    · exact h
  · exact h

theorem entryStep_ledger (symbol : String) (st : BtState) (bar : Bar)
    (pred : TradingPrediction) (h : ledgerOk st) :
    ledgerOk (entryStep symbol st bar pred) := by
  unfold ledgerOk at h ⊢
  simp only [entryStep, appendEquity]
  split
  · split
    · exact h
    · split
      · exact h
      · show st.balance = initialBalance + closedPnlSum (st.trades ++ [_])
        rw [closedPnlSum_append]
        simp [h]
  · exact h

theorem stepBar_ledger (symbol : String) (st : BtState) (bar : Bar)
    (pred : TradingPrediction) (h : ledgerOk st) :
    ledgerOk (stepBar symbol st bar pred) :=
  entryStep_ledger symbol _ bar pred (exitStep_ledger symbol st bar pred h)

theorem loopFold_ledger (symbol : String) (bars : List (Bar × TradingPrediction)) :
    ledgerOk (loopFold symbol bars) := by
  have hgen : ∀ (l : List (Bar × TradingPrediction)) (st : BtState), ledgerOk st →
      ledgerOk (l.foldl (fun st bp => stepBar symbol st bp.1 bp.2) st) := by
    intro l
    induction l with
    | nil => intro st h; exact h
    | cons bp rest ih =>
        intro st h
        exact ih _ (stepBar_ledger symbol st bp.1 bp.2 h)
  exact hgen bars initState (by
    unfold ledgerOk initState closedPnlSum closedPnl
    simp)

theorem exitStep_equity (symbol : String) (st : BtState) (bar : Bar)
    (pred : TradingPrediction) :
    (exitStep symbol st bar pred).equity_curve = st.equity_curve := by
  simp only [exitStep]
  split
  · split <;> rfl
  · rfl

theorem entryStep_equity_len (symbol : String) (st : BtState) (bar : Bar)
    (pred : TradingPrediction) :
    (entryStep symbol st bar pred).equity_curve.length =
      st.equity_curve.length + (if buySkip st bar pred then 0 else 1) := by
  simp only [entryStep, appendEquity, buySkip]
  split_ifs <;> simp_all

theorem stepBar_equity_len (symbol : String) (st : BtState) (bar : Bar)
    (pred : TradingPrediction) :
    (stepBar symbol st bar pred).equity_curve.length =
      st.equity_curve.length +
        (if buySkip (exitStep symbol st bar pred) bar pred then 0 else 1) := by
  unfold stepBar
  rw [entryStep_equity_len, exitStep_equity]

theorem pairFold_inv (symbol : String) (bars : List (Bar × TradingPrediction)) :
    ∀ (st : BtState) (n : Nat),
      (bars.foldl
        (fun acc bp =>
          (stepBar symbol acc.1 bp.1 bp.2,
           acc.2 + (if buySkip (exitStep symbol acc.1 bp.1 bp.2) bp.1 bp.2 then 1 else 0)))
        (st, n)).1 =
        bars.foldl (fun st bp => stepBar symbol st bp.1 bp.2) st ∧
      (bars.foldl
        (fun acc bp =>
          (stepBar symbol acc.1 bp.1 bp.2,
           acc.2 + (if buySkip (exitStep symbol acc.1 bp.1 bp.2) bp.1 bp.2 then 1 else 0)))
        (st, n)).2 +
        (bars.foldl (fun st bp => stepBar symbol st bp.1 bp.2) st).equity_curve.length =
        n + st.equity_curve.length + bars.length := by
  induction bars with
  | nil => intro st n; exact ⟨rfl, by simp⟩
  | cons bp rest ih =>
      intro st n
      simp only [List.foldl_cons, List.length_cons]
      refine ⟨(ih _ _).1, ?_⟩
      have h2 := (ih (stepBar symbol st bp.1 bp.2)
        (n + if buySkip (exitStep symbol st bp.1 bp.2) bp.1 bp.2 then 1 else 0)).2
      rw [h2, stepBar_equity_len]
      by_cases hb : buySkip (exitStep symbol st bp.1 bp.2) bp.1 bp.2 <;>
        simp [hb] <;> omega

theorem equity_len_plus_skips (symbol : String)
    (bars : List (Bar × TradingPrediction)) :
    (loopFold symbol bars).equity_curve.length + skipCount symbol bars = bars.length := by
  have h := (pairFold_inv symbol bars initState 0).2
  unfold skipCount skipCountFold loopFold
  simp only [initState, List.length_nil] at h ⊢
  omega

/-! ## Concrete backtest run used by the backtest witnesses -/

/-- The result of backtesting one bar (close 100) against a BUY decision with
stop 96: quantity 50 at entry 100, equity 15000 (balance plus mark-to-market),
position force-closed at 100 for a pnl of 0. -/
def sampleBacktestResult : BacktestResult :=
  { initial_balance := 10000
    final_balance := 10000
    total_return_pct := 0
    win_rate_pct := 0
    closed_trade_count := 1
    trades :=
      [{ entry_date := some "2024-01-02", exit_date := none, symbol := "AAPL",
         action := "BUY", entry_price := 100, exit_price := none, quantity := 50,
         pnl := none, pct_return := none },
       { entry_date := some "2024-01-02", exit_date := some "2024-01-02",
         symbol := "AAPL", action := "SELL", entry_price := 100,
         exit_price := some 100, quantity := 50, pnl := some 0,
         pct_return := some 0 }]
    equity_curve := [("2024-01-02", 15000)] }

theorem sampleRunEval :
    runBacktest "AAPL" [(sampleBar, sampleBuyPrediction)] =
      Except.ok sampleBacktestResult := by
  norm_num +decide [runBacktest, loopFold, stepBar, entryStep, exitStep, exitReason,
    stopHit, targetHit, riskPerShare, appendEquity, initState, initialBalance,
    riskPercent, forceCloseTrade, closedPnl, closedPnlSum, sampleBar,
    sampleBuyPrediction, sampleBacktestResult, Int.floor_eq_iff]

/-- Claim C6: for every successful backtest run, the final balance equals the
initial balance plus the sum of pnl over the closed trades, and a position
still open after the loop is force-closed at the last bar's close, appending
a closed TradeRecord (its `pnl` is set). -/
theorem backtest_ledger_balance (symbol : String)
    (bars : List (Bar × TradingPrediction)) (r : BacktestResult)
    (h : runBacktest symbol bars = Except.ok r) :
    r.final_balance = r.initial_balance + closedPnlSum r.trades ∧
    ((loopFold symbol bars).position_open = true →
      ∀ lastBp, bars.getLast? = some lastBp →
        r.trades = (loopFold symbol bars).trades ++
          [forceCloseTrade symbol (loopFold symbol bars) lastBp.1] ∧
        (forceCloseTrade symbol (loopFold symbol bars) lastBp.1).pnl.isSome) := by
  have hinv := loopFold_ledger symbol bars
  unfold runBacktest at h
  rcases hL : bars.getLast? with _ | lastBp0
  · rw [hL] at h
    exact absurd h (by simp)
  · rw [hL] at h
    simp only [] at h
    by_cases hopen : (loopFold symbol bars).position_open
    · rw [if_pos hopen] at h
      cases h
      constructor
      · show (loopFold symbol bars).balance + _ =
          initialBalance + closedPnlSum ((loopFold symbol bars).trades ++ [_])
        rw [closedPnlSum_append]
        unfold ledgerOk at hinv
        unfold forceCloseTrade
        simp
        rw [hinv]
        ring
      · intro _ lastBp hlast
        have hEq : lastBp = lastBp0 := (Option.some_inj.mp hlast).symm
        subst hEq
        exact ⟨rfl, rfl⟩
    · rw [if_neg hopen] at h
      cases h
      refine ⟨hinv, fun ho => absurd ho hopen⟩

/-- Witness for C6: the one-bar sample run balances (10000 = 10000 + 0). -/
theorem backtest_ledger_balance_witness :
    sampleBacktestResult.final_balance =
      sampleBacktestResult.initial_balance + closedPnlSum sampleBacktestResult.trades :=
  (backtest_ledger_balance "AAPL" [(sampleBar, sampleBuyPrediction)]
    sampleBacktestResult sampleRunEval).1

/-- Claim C7 (counterexample): a bar whose BUY is skipped because the sized
quantity is 0 (close 20000, no stop: risk per share 400 > 2% of balance) gets
NO equity-curve entry — the `continue` skips the append — so the curve is
shorter than the bar series (0 entries for 1 bar). -/
theorem equity_curve_shorter_than_bars :
    (runBacktest "NVDA" [(bigBar, buyNoStopPrediction)]).map
      (fun r => r.equity_curve.length) = Except.ok 0 ∧
    [(bigBar, buyNoStopPrediction)].length = 1 := by
  constructor
  · norm_num +decide [runBacktest, loopFold, stepBar, entryStep, exitStep, exitReason,
      stopHit, targetHit, riskPerShare, appendEquity, initState, initialBalance,
      riskPercent, forceCloseTrade, closedPnl, closedPnlSum, bigBar,
      buyNoStopPrediction, sampleBuyPrediction, Except.map, Int.floor_eq_iff]
  · rfl

/-- Claim C7 (amended): the equity curve gains one entry per bar EXCEPT bars
on which the BUY-sizing `continue` fires (flat position, BUY signal, and
non-positive risk per share or a floored quantity ≤ 0) — those bars append
nothing, so the curve length plus the number of skipped bars equals the
number of bars. -/
theorem equity_curve_length (symbol : String)
    (bars : List (Bar × TradingPrediction)) (r : BacktestResult)
    (h : runBacktest symbol bars = Except.ok r) :
    r.equity_curve.length + skipCount symbol bars = bars.length := by
  unfold runBacktest at h
  rcases hL : bars.getLast? with _ | lastBp0
  · rw [hL] at h
    exact absurd h (by simp)
  · rw [hL] at h
    simp only [] at h
    have hcurve : r.equity_curve = (loopFold symbol bars).equity_curve := by
      by_cases hopen : (loopFold symbol bars).position_open
      · rw [if_pos hopen] at h; cases h; rfl
      · rw [if_neg hopen] at h; cases h; rfl
    rw [hcurve]
    exact equity_len_plus_skips symbol bars

/-- Witness for C7's amended theorem: the sample run appends one equity entry
for its one bar and skips none. -/
theorem equity_curve_length_witness :
    sampleBacktestResult.equity_curve.length +
      skipCount "AAPL" [(sampleBar, sampleBuyPrediction)] = 1 :=
  equity_curve_length "AAPL" [(sampleBar, sampleBuyPrediction)]
    sampleBacktestResult sampleRunEval

/-- Claim C9 (counterexample): a failing persistence write is NOT swallowed —
`run_backtest` calls `_save_backtest_result` with no `try/except`, so the
caller receives the error and no BacktestResult, even though the simulation
itself succeeded. -/
theorem save_failure_blocks_result :
    runBacktestAndSave "AAPL" [(sampleBar, sampleBuyPrediction)]
      (Except.error "db write failed") = Except.error "db write failed" := by
  unfold runBacktestAndSave
  rw [sampleRunEval]

/-- Claim C9 (amended): whenever the simulation itself succeeds, a failure of
the persistence write propagates out of `run_backtest` unchanged — the caller
gets the persistence error instead of the BacktestResult. -/
theorem save_failure_propagates (symbol : String)
    (bars : List (Bar × TradingPrediction)) (r : BacktestResult) (e : String)
    (h : runBacktest symbol bars = Except.ok r) :
    runBacktestAndSave symbol bars (Except.error e) = Except.error e := by
  unfold runBacktestAndSave
  rw [h]

/-- Witness for C9's amended theorem, on the concrete one-bar run. -/
theorem save_failure_propagates_witness :
    runBacktestAndSave "AAPL" [(sampleBar, sampleBuyPrediction)]
      (Except.error "sqlite unavailable") = Except.error "sqlite unavailable" :=
  save_failure_propagates "AAPL" [(sampleBar, sampleBuyPrediction)]
    sampleBacktestResult "sqlite unavailable" sampleRunEval

end Hermes
